import Mathlib

/-!
Shallow embedding of the Ollama chat client (src/ollama_chat.py): the session
configuration, the template registry, the slash-command interpreter
(handle_command), the per-turn streaming-response consumer, the
tokens-per-minute metric (calculate_tpm) and the startup phase of chat().
Python floats are modelled as rationals, Python lists as Lean lists, and the
text printed to the terminal as a list of strings (the colour layer of
termcolor is presentation only and is not modelled).
-/

namespace OllamaChat

/-! ### String helpers mirroring the Python built-ins used by the source -/

/-- The characters Python str.split() with no argument treats as whitespace. -/
def isPySpace (c : Char) : Bool :=
  c == ' ' || c == '\t' || c == '\n' || c == '\r' || c == '\x0b' || c == '\x0c'

/-- Worker for pySplit: walks the character list, accumulating the current
token in reverse. -/
def pySplitAux : List Char → List Char → List String
  | [], cur => if cur.isEmpty then [] else [String.mk cur.reverse]
  | c :: cs, cur =>
    if isPySpace c then
      if cur.isEmpty then pySplitAux cs [] else String.mk cur.reverse :: pySplitAux cs []
    else pySplitAux cs (c :: cur)

/-- Python str.split() with no argument: splits on runs of whitespace and
never yields empty tokens. Used by handle_command as cmd.split(). -/
def pySplit (s : String) : List String :=
  pySplitAux s.toList []

/-- Python str.lower() (the source only lowercases ASCII command words). -/
def pyLower (s : String) : String :=
  String.mk (s.toList.map Char.toLower)

/-- Value of a list of decimal digit characters. -/
def digitsToNat (cs : List Char) : ℕ :=
  cs.foldl (fun a c => 10 * a + (c.toNat - 48)) 0

/-- Python float(s), modelled on optional-sign decimal literals such as
"3", "0.5", "-.7" or "1.". Returns none where float() raises ValueError.
(float() also accepts exponent forms, inf/nan spellings and surrounding
whitespace; no claim depends on those inputs.) -/
def pyFloat? (s : String) : Option ℚ :=
  let cs := s.toList
  let signed : ℚ × List Char :=
    match cs with
    | '-' :: rest => (-1, rest)
    | '+' :: rest => (1, rest)
    | _ => (1, cs)
  let sign := signed.1
  let body := signed.2
  let intPart := body.takeWhile (fun c => c.isDigit)
  let rest := body.drop intPart.length
  match rest with
  | [] => if intPart.isEmpty then none else some (sign * digitsToNat intPart)
  | '.' :: frac =>
    if frac.all (fun c => c.isDigit) && !(intPart.isEmpty && frac.isEmpty) then
      some (sign * ((digitsToNat intPart : ℚ) + (digitsToNat frac : ℚ) / (10 ^ frac.length)))
    else none
  | _ => none

/-- Python int() applied to a rational: truncation toward zero. -/
def pyInt (q : ℚ) : ℤ :=
  Int.tdiv q.num q.den

/-- Python sep.join(parts). -/
def pyJoin (sep : String) : List String → String
  | [] => ""
  | [a] => a
  | a :: b :: rest => a ++ sep ++ pyJoin sep (b :: rest)

/-- First line of a string, as Python text.split(chr(10))[0]. -/
def firstLine (s : String) : String :=
  String.mk (s.toList.takeWhile (fun c => c ≠ '\n'))

/-- Python s[:50]. -/
def strTake (s : String) (n : ℕ) : String :=
  String.mk (s.toList.take n)

/-! ### DEFAULT_PARAMS and TEMPLATES (module-level tables of the source) -/

def DEFAULT_PARAMS_temperature : ℚ := 0.7

def DEFAULT_PARAMS_top_p : ℚ := 0.9

def DEFAULT_PARAMS_max_tokens : ℤ := 2048

def DEFAULT_PARAMS_show_reasoning : Bool := true

/-- The static template registry, in dict insertion order. Texts are the
triple-quoted Python literals with their embedded newlines. -/
def TEMPLATES : List (String × String) :=
  [("coder", "You are an expert programmer. For each response:\n1. First think step-by-step about the best approach (prefix with \x27Reasoning:\x27)\n2. Then provide the solution (prefix with \x27Solution:\x27)\n3. Finally, explain any important considerations (prefix with \x27Notes:\x27)\nProvide detailed, well-documented code with explanations."),
   ("writer", "You are a creative writer. For each response:\n1. First analyze the writing task (prefix with \x27Analysis:\x27)\n2. Consider style and approach (prefix with \x27Style Considerations:\x27)\n3. Then provide the writing (prefix with \x27Content:\x27)\nFocus on engaging, descriptive language."),
   ("analyst", "You are a data analyst. For each response:\n1. First analyze the question carefully (prefix with \x27Analysis:\x27)\n2. List key considerations (prefix with \x27Considerations:\x27)\n3. Provide methodology (prefix with \x27Method:\x27)\n4. Then provide your conclusion (prefix with \x27Conclusion:\x27)\nProvide detailed, analytical responses with clear reasoning."),
   ("teacher", "You are a patient teacher. For each response:\n1. First break down the concept (prefix with \x27Understanding:\x27)\n2. Identify potential confusion points (prefix with \x27Common Misconceptions:\x27)\n3. Then explain step by step (prefix with \x27Explanation:\x27)\n4. Provide examples (prefix with \x27Examples:\x27)\nExplain concepts clearly and thoroughly."),
   ("concise", "You provide brief, direct answers without unnecessary details."),
   ("reasoning", "For each response:\n1. First analyze the question (prefix with \x27Analysis:\x27)\n2. Break down your thinking process (prefix with \x27Reasoning:\x27)\n3. List key points to consider (prefix with \x27Key Points:\x27)\n4. Then provide your response (prefix with \x27Response:\x27)\n5. Add any caveats or limitations (prefix with \x27Limitations:\x27)")]

/-- Python TEMPLATES.get(name, default). -/
def templatesGet (name : String) (dflt : String) : String :=
  ((TEMPLATES.lookup name).getD dflt)

/-! ### Data model: messages, CLI arguments, ChatConfig -/

/-- One element of the conversation list: a dict with role and content. -/
structure Message where
  role : String
  content : String
deriving DecidableEq, Repr

/-- The argparse namespace of main(): each optional flag is None or a value.
Python floats are modelled as rationals; argparse itself imposes no range
check on temperature/top-p and no registry check beyond the template
choices list (which is part of main, not of ChatConfig). -/
structure Args where
  model : Option String
  temperature : Option ℚ
  top_p : Option ℚ
  max_tokens : Option ℤ
  template : Option String
  no_reasoning : Bool
deriving DecidableEq, Repr

/-- The mutable session configuration object. template mirrors the Python
attribute that is None or a template name (later possibly "custom"). -/
structure ChatConfig where
  temperature : ℚ
  top_p : ℚ
  max_tokens : ℤ
  template : Option String
  current_template : String
  show_reasoning : Bool
deriving DecidableEq, Repr

/-- ChatConfig.__init__(args): each field falls back to DEFAULT_PARAMS when
its flag is absent; current_template is TEMPLATES.get(self.template, "")
(None is never a key, so an absent template resolves to the empty string);
show_reasoning always starts True. -/
def ChatConfig.init (args : Args) : ChatConfig :=
  { temperature := args.temperature.getD DEFAULT_PARAMS_temperature
    top_p := args.top_p.getD DEFAULT_PARAMS_top_p
    max_tokens := args.max_tokens.getD DEFAULT_PARAMS_max_tokens
    template := args.template
    current_template :=
      match args.template with
      | none => ""
      | some n => templatesGet n ""
    show_reasoning := true }

/-- The configuration with which main() enters chat(): ChatConfig(args)
followed by the no-reasoning override. -/
def startupConfig (args : Args) : ChatConfig :=
  let config := ChatConfig.init args
  if args.no_reasoning then { config with show_reasoning := false } else config

/-! ### Command interpreter (handle_command) -/

/-- Result of one handle_command call: the Python return value (True =
continue the session, False = terminate), the configuration and conversation
after the side effects, and the lines printed. -/
structure CommandResult where
  signal : Bool
  config : ChatConfig
  conversation : List Message
  output : List String
deriving DecidableEq, Repr

/-- The help_text literal printed by show_chat_help(). -/
def show_chat_help_text : String :=
  "\nAvailable Commands:\n  Model Parameters:\n    /temp <0.0-1.0>     - Adjust temperature (higher = more creative)\n    /top_p <0.0-1.0>    - Adjust top_p sampling\n    /tokens <number>     - Set max tokens per response\n    /params             - Show current parameters\n    /reset             - Reset parameters to defaults\n    /reasoning on|off  - Toggle showing model\x27s reasoning process\n\n  Templates:\n    /template list      - Show available templates\n    /template use NAME  - Switch to template (coder/writer/analyst/teacher/concise/reasoning)\n    /template show      - Show current template\n    /template custom    - Set custom template\n\n  Chat Controls:\n    /clear             - Clear conversation history\n    /exit, /quit       - Exit the chat\n    /help              - Show this help message\n    "

/-- The lines printed by the /template list branch: a header and, per
registry entry in order, its name with the first 50 characters of the first
line of its text. -/
def templateListOutput : List String :=
  "\nAvailable templates:" ::
    TEMPLATES.map (fun p => "  " ++ p.1 ++ ": " ++ strTake (firstLine p.2) 50 ++ "...")

/-- The /params snapshot text (numbers rendered via ToString of the model
types rather than Python float repr; presentation only). -/
def paramsOutput (config : ChatConfig) : String :=
  let templateShown :=
    match config.template with
    | none => "None"
    | some t => if t = "" then "None" else t
  let reasoningShown := if config.show_reasoning then "enabled" else "disabled"
  "\nCurrent Parameters:\n  Temperature: " ++ toString config.temperature ++
    "\n  Top_P: " ++ toString config.top_p ++
    "\n  Max Tokens: " ++ toString config.max_tokens ++
    "\n  Template: " ++ templateShown ++
    "\n  Reasoning: " ++ reasoningShown ++ "\n        "

/-- The body of handle_command after cmd_parts = cmd.split(): dispatch on
cmd_parts[0].lower(). Falling off the end of the elif chain (unknown
command word, or a known word whose branch checks an argument count that
does not hold) returns True with no output and no state change, exactly as
the Python function reaches its trailing return True. The source never
calls this with an empty cmd_parts (the loop skips blank input), so the []
case is the same silent fall-through. -/
def handle_command_parts (cmd_parts : List String) (config : ChatConfig)
    (conversation : List Message) : CommandResult :=
  match cmd_parts with
  | [] => ⟨true, config, conversation, []⟩
  | w :: rest =>
    match pyLower w, rest with
    | "/help", _ => ⟨true, config, conversation, [show_chat_help_text]⟩
    | "/reasoning", [arg] =>
      if pyLower arg = "on" || pyLower arg = "off" then
        ⟨true, { config with show_reasoning := pyLower arg = "on" }, conversation,
          ["Reasoning output " ++ (if pyLower arg = "on" then "enabled" else "disabled")]⟩
      else
        ⟨true, config, conversation, ["Invalid option. Use \x27on\x27 or \x27off\x27"]⟩
    | "/reasoning", _ =>
      ⟨true, config, conversation,
        ["Current reasoning state: " ++
          (if config.show_reasoning then "enabled" else "disabled")]⟩
    | "/temp", [arg] =>
      match pyFloat? arg with
      | some temp =>
        if 0 ≤ temp ∧ temp ≤ 1 then
          ⟨true, { config with temperature := temp }, conversation,
            ["Temperature set to " ++ toString temp]⟩
        else
          ⟨true, config, conversation, ["Temperature must be between 0.0 and 1.0"]⟩
      | none => ⟨true, config, conversation, ["Invalid temperature value"]⟩
    | "/params", _ => ⟨true, config, conversation, [paramsOutput config]⟩
    | "/template", [] =>
      ⟨true, config, conversation, ["Missing template command. Use: list, use, show, or custom"]⟩
    | "/template", sub :: args =>
      if pyLower sub = "list" then
        ⟨true, config, conversation, templateListOutput⟩
      else if pyLower sub = "use" ∧ args.length = 1 then
        match TEMPLATES.lookup (pyLower args.headI) with
        | some text =>
          ⟨true, { config with template := some (pyLower args.headI), current_template := text },
            conversation, ["Switched to " ++ pyLower args.headI ++ " template"]⟩
        | none =>
          ⟨true, config, conversation,
            ["Template \x27" ++ pyLower args.headI ++ "\x27 not found"]⟩
      else if pyLower sub = "show" then
        if config.current_template ≠ "" then
          ⟨true, config, conversation, ["Current template: " ++ config.current_template]⟩
        else
          ⟨true, config, conversation, ["No template currently set"]⟩
      else if pyLower sub = "custom" then
        if pyJoin " " args ≠ "" then
          ⟨true, { config with current_template := pyJoin " " args, template := some "custom" },
            conversation, ["Custom template set"]⟩
        else
          ⟨true, config, conversation, ["Please provide a template text"]⟩
      else
        ⟨true, config, conversation, []⟩
    | "/clear", _ =>
      ⟨true, config,
        (if config.current_template ≠ "" then
          [Message.mk "system" config.current_template]
        else []),
        ["Conversation cleared"]⟩
    | "/exit", _ => ⟨false, config, conversation, []⟩
    | "/quit", _ => ⟨false, config, conversation, []⟩
    | _, _ => ⟨true, config, conversation, []⟩

/-- handle_command(cmd, config, conversation): split the raw line, then
dispatch. -/
def handle_command (cmd : String) (config : ChatConfig)
    (conversation : List Message) : CommandResult :=
  handle_command_parts (pySplit cmd) config conversation

/-- The configuration/conversation state after a sequence of command lines,
threaded exactly as the session loop does between turns. -/
def runCommands : List String → ChatConfig × List Message → ChatConfig × List Message
  | [], st => st
  | c :: cs, st =>
    let r := handle_command c st.1 st.2
    runCommands cs (r.config, r.conversation)

/-! ### calculate_tpm -/

/-- calculate_tpm(tokens, elapsed_time): minutes = elapsed_time / 60;
int(tokens / minutes) if minutes > 0 else 0. -/
def calculate_tpm (tokens : ℕ) (elapsed_time : ℚ) : ℤ :=
  let minutes := elapsed_time / 60
  if 0 < minutes then pyInt ((tokens : ℚ) / minutes) else 0

/-! ### Streaming response consumer (the for-loop over response.iter_lines()) -/

/-- One line of the response stream after the structural stage of the loop
body: blank lines are rejected by the if-line guard before parsing;
malformed lines make json.loads raise JSONDecodeError; a parsed object
carries whether a message key is present (and, inside it, an optional
content string) and an optional eval_count. json.loads itself is the
external JSON library; its verdict on each concrete byte line is recorded in
this type. -/
inductive LineParse where
  | blank
  | malformed
  | object (message : Option (Option String)) (eval_count : Option ℕ)
deriving DecidableEq, Repr

/-- The text a parsed object contributes to assistant_message:
json_response[\x27message\x27].get(\x27content\x27, \x27\x27) when the
message key is present, nothing otherwise. -/
def chunkTextOf : LineParse → String
  | .object (some c) _ => c.getD ""
  | _ => ""

/-- The eval_count carried by a line, if any. -/
def evalOf : LineParse → Option ℕ
  | .object _ ev => ev
  | _ => none

/-- The consumer loop, threading assistant_message and token_count through
the lines in arrival order: blank lines are skipped by the if-line guard,
malformed lines by the except-continue, a parsed object appends its chunk
text and overwrites token_count when it carries an eval_count. -/
def consumeStream : List LineParse → String → ℕ → String × ℕ
  | [], acc, tok => (acc, tok)
  | .blank :: ls, acc, tok => consumeStream ls acc tok
  | .malformed :: ls, acc, tok => consumeStream ls acc tok
  | .object msg ev :: ls, acc, tok =>
    consumeStream ls (acc ++ chunkTextOf (.object msg ev)) (ev.getD tok)

/-- The lines the loop body acts on; blank and malformed lines are skipped
(by the if-line guard and the except-continue respectively). -/
def isParsedLine : LineParse → Bool
  | .blank => false
  | .malformed => false
  | .object _ _ => true

/-- The reply text as the claims phrase it: the chunk contributions of the
lines, concatenated in arrival order. -/
def assembledReply : List LineParse → String
  | [] => ""
  | l :: ls => chunkTextOf l ++ assembledReply ls

/-! ### Model directory client and the startup phase of chat() -/

/-- One record of the models array of the /api/tags response. -/
structure ModelRec where
  name : String
deriving DecidableEq, Repr

/-- get_available_models(url): on a successful request whose body parses and
carries a models array, the list of the name field of each record; any
exception in the try block (network failure, JSON decode failure, missing
key) is caught and yields the empty list. -/
def get_available_models (fetched : Option (List ModelRec)) : List String :=
  match fetched with
  | none => []
  | some ms => ms.map (fun m => m.name)

/-- Whether select_model(models, default_model) reaches its interactive
numbered prompt: it returns early, without prompting, exactly when a default
model is supplied and is in the list. -/
def select_model_prompts (models : List String) (default_model : Option String) : Bool :=
  match default_model with
  | some d => decide (d ∉ models)
  | none => true

/-- Outcome of the startup phase of chat(), up to entering the input loop. -/
structure ChatStartup where
  aborted : Bool
  selectionPromptIssued : Bool
  loopEntered : Bool
  output : List String
deriving DecidableEq, Repr

/-- The startup phase of chat(config): fetch the model list; an empty list
prints the exit message and returns before select_model and before the loop;
otherwise select_model runs (prompting unless the configured model is
present) and the loop is entered with the initial conversation. -/
def chatStartup (fetched : Option (List ModelRec)) (configModel : Option String) : ChatStartup :=
  let models := get_available_models fetched
  if models.isEmpty then
    ⟨true, false, false, ["No models found. Exiting..."]⟩
  else
    ⟨false, select_model_prompts models configModel, true, []⟩

/-! ### Shared concrete states for witnesses -/

/-- The configuration of a bare startup (every flag absent). -/
def cfgDefault : ChatConfig :=
  ChatConfig.init ⟨none, none, none, none, none, false⟩

/-- A startup configuration with the concise template active. -/
def cfgConcise : ChatConfig :=
  ChatConfig.init ⟨none, none, none, none, some "concise", false⟩

/-- A session state in which the user has moved temperature off its default. -/
def cfgHalfTemp : ChatConfig :=
  { cfgDefault with temperature := 1/2 }

/-- The bounded-field invariant stated for SessionConfiguration: temperature
and top_p lie in [0, 1]. -/
def ConfigInv (c : ChatConfig) : Prop :=
  (0 ≤ c.temperature ∧ c.temperature ≤ 1) ∧ (0 ≤ c.top_p ∧ c.top_p ≤ 1)

/-! ### Helper lemmas -/

theorem pyInt_eq_floor (q : ℚ) (h : 0 ≤ q) : pyInt q = ⌊q⌋ := by
  rw [pyInt, Rat.floor_def, Int.tdiv_eq_ediv (Rat.num_nonneg.mpr h) (by positivity)]

theorem getLast?_getD_cons (x d : ℕ) (xs : List ℕ) :
    ((x :: xs).getLast?).getD d = (xs.getLast?).getD x := by
  cases xs with
  | nil => rfl
  | cons b bs =>
    rw [List.getLast?_cons_cons]
    have hs : ((b :: bs).getLast?).isSome := by
      rw [List.getLast?_isSome]
      simp
    obtain ⟨y, hy⟩ := Option.isSome_iff_exists.mp hs
    rw [hy]
    rfl

theorem consumeStream_acc (lines : List LineParse) (acc : String) (tok : ℕ) :
    consumeStream lines acc tok =
      (acc ++ assembledReply lines, ((lines.filterMap evalOf).getLast?).getD tok) := by
  induction lines generalizing acc tok with
  | nil => simp [consumeStream, assembledReply]
  | cons l ls ih =>
    cases l with
    | blank => simp [consumeStream, ih, assembledReply, chunkTextOf, evalOf]
    | malformed => simp [consumeStream, ih, assembledReply, chunkTextOf, evalOf]
    | object msg ev =>
      cases ev with
      | none =>
        simp [consumeStream, ih, assembledReply, evalOf, List.filterMap_cons,
          String.append_assoc]
      | some n =>
        simp [consumeStream, ih, assembledReply, evalOf, List.filterMap_cons,
          String.append_assoc, getLast?_getD_cons]

theorem assembledReply_filter (lines : List LineParse) :
    assembledReply (lines.filter isParsedLine) = assembledReply lines := by
  induction lines with
  | nil => rfl
  | cons l ls ih =>
    cases l <;> simp [assembledReply, chunkTextOf, isParsedLine, List.filter_cons, ih]

theorem evalOf_filter (lines : List LineParse) :
    (lines.filter isParsedLine).filterMap evalOf = lines.filterMap evalOf := by
  induction lines with
  | nil => rfl
  | cons l ls ih =>
    cases l <;> simp [evalOf, isParsedLine, List.filter_cons, List.filterMap_cons, ih]

theorem clear_reduce (cfg : ChatConfig) (conv : List Message) :
    handle_command "/clear" cfg conv =
      ⟨true, cfg,
        (if cfg.current_template ≠ "" then [Message.mk "system" cfg.current_template] else []),
        ["Conversation cleared"]⟩ := rfl

theorem temp_reduce (t : String) (cfg : ChatConfig) (conv : List Message) :
    handle_command_parts ["/temp", t] cfg conv =
      (match pyFloat? t with
       | some temp =>
         if 0 ≤ temp ∧ temp ≤ 1 then
           (⟨true, { cfg with temperature := temp }, conv,
             ["Temperature set to " ++ toString temp]⟩ : CommandResult)
         else
           ⟨true, cfg, conv, ["Temperature must be between 0.0 and 1.0"]⟩
       | none => ⟨true, cfg, conv, ["Invalid temperature value"]⟩) := rfl

theorem custom_reduce (args : List String) (cfg : ChatConfig) (conv : List Message) :
    handle_command_parts ("/template" :: "custom" :: args) cfg conv =
      (if pyJoin " " args ≠ "" then
        (⟨true, { cfg with current_template := pyJoin " " args, template := some "custom" },
          conv, ["Custom template set"]⟩ : CommandResult)
       else ⟨true, cfg, conv, ["Please provide a template text"]⟩) := rfl

theorem step_inv (parts : List String) (cfg : ChatConfig) (conv : List Message)
    (h : ConfigInv cfg) : ConfigInv (handle_command_parts parts cfg conv).config := by
  unfold handle_command_parts
  split
  · exact h
  · split <;>
      first
        | exact h
        | (split_ifs <;> first | exact h | (split <;> exact h))
        | (split <;> first | exact h | (split_ifs <;> first | exact h | exact ⟨by assumption, h.2⟩))

theorem runCommands_inv (cmds : List String) (st : ChatConfig × List Message)
    (h : ConfigInv st.1) : ConfigInv (runCommands cmds st).1 := by
  induction cmds generalizing st with
  | nil => exact h
  | cons c cs ih => exact ih _ (step_inv (pySplit c) st.1 st.2 h)

theorem startupConfig_bounded_fields (args : Args) :
    (startupConfig args).temperature = args.temperature.getD DEFAULT_PARAMS_temperature ∧
    (startupConfig args).top_p = args.top_p.getD DEFAULT_PARAMS_top_p := by
  unfold startupConfig
  split <;> exact ⟨rfl, rfl⟩

theorem mk_reverse_ne_empty (c : Char) (cs : List Char) :
    String.mk ((c :: cs).reverse) ≠ "" := by
  intro h
  have hd := congrArg String.data h
  simp at hd

theorem pySplitAux_ne_empty : ∀ (cs cur : List Char), "" ∉ pySplitAux cs cur := by
  intro cs
  induction cs with
  | nil =>
    intro cur
    cases cur with
    | nil => simp [pySplitAux]
    | cons d ds =>
      simp only [pySplitAux, List.isEmpty_cons, Bool.false_eq_true, if_false,
        List.mem_singleton]
      intro he
      exact mk_reverse_ne_empty d ds he.symm
  | cons c cs ih =>
    intro cur
    by_cases hs : isPySpace c
    · cases cur with
      | nil => simpa [pySplitAux, hs] using ih []
      | cons d ds =>
        simp only [pySplitAux, hs, List.isEmpty_cons, Bool.false_eq_true, if_true,
          if_false, List.mem_cons]
        rintro (he | he)
        · exact mk_reverse_ne_empty d ds he.symm
        · exact ih [] he
    · simp only [pySplitAux, hs, Bool.false_eq_true, if_false]
      exact ih (c :: cur)

theorem pySplit_tokens_ne_empty (s : String) : "" ∉ pySplit s :=
  pySplitAux_ne_empty s.toList []

theorem pyJoin_ne_empty (a : String) (rest : List String) (ha : a ≠ "") :
    pyJoin " " (a :: rest) ≠ "" := by
  cases rest with
  | nil => simpa [pyJoin] using ha
  | cons b tl =>
    show a ++ " " ++ pyJoin " " (b :: tl) ≠ ""
    intro hcon
    have := congrArg String.data hcon
    simp [String.data_append] at this

/-! ### Claim theorems -/

/-- C7: for every token count t and elapsed time e, calculate_tpm returns
floor(t / (e/60)) when e > 0, returns 0 when e ≤ 0, and returns 0 whenever
t = 0. -/
theorem calculate_tpm_spec (tokens : ℕ) (e : ℚ) :
    (0 < e → calculate_tpm tokens e = ⌊(tokens : ℚ) / (e / 60)⌋) ∧
    (e ≤ 0 → calculate_tpm tokens e = 0) ∧
    calculate_tpm 0 e = 0 := by
  refine ⟨?_, ?_, ?_⟩
  · intro he
    have hm : 0 < e / 60 := by positivity
    have hq : 0 ≤ (tokens : ℚ) / (e / 60) := by positivity
    simp only [calculate_tpm, if_pos hm]
    exact pyInt_eq_floor _ hq
  · intro he
    have hm : ¬ 0 < e / 60 := by
      intro hc
      nlinarith [hc]
    simp only [calculate_tpm, if_neg hm]
  · by_cases hm : 0 < e / 60
    · simp only [calculate_tpm, if_pos hm]
      norm_num [pyInt]
    · simp only [calculate_tpm, if_neg hm]

/-- Witness for C7 at tokens = 120, e = 30: half a minute at 120 tokens is
240 tokens per minute. -/
theorem calculate_tpm_spec_witness :
    (0 : ℚ) < 30 ∧ calculate_tpm 120 30 = ⌊(120 : ℚ) / (30 / 60)⌋ ∧
      calculate_tpm 120 30 = 240 := by
  have h1 := (calculate_tpm_spec 120 30).1 (by norm_num)
  have h2 : ((120 : ℕ) : ℚ) / (30 / 60) = ((240 : ℤ) : ℚ) := by norm_num
  refine ⟨by norm_num, h1, ?_⟩
  rw [h1, h2, Int.floor_intCast]

/-- C3: the consumer assembles the chunk texts in arrival order and reports
the last-seen eval_count (0 if none); skipped lines (blank or structurally
malformed) never change the outcome or abort the fold; on the four-line
scenario the reply is "Hi there" and the count 5. -/
theorem stream_consumer_spec :
    (∀ lines : List LineParse,
        consumeStream lines "" 0 =
          (assembledReply lines, ((lines.filterMap evalOf).getLast?).getD 0)) ∧
    (∀ lines : List LineParse,
        consumeStream lines "" 0 =
          consumeStream (lines.filter isParsedLine) "" 0) ∧
    consumeStream
        [.object (some (some "Hi")) none, .malformed,
         .object (some (some " there")) none, .object none (some 5)] "" 0 =
      ("Hi there", 5) := by
  refine ⟨?_, ?_, by decide⟩
  · intro lines
    rw [consumeStream_acc]
    simp
  · intro lines
    rw [consumeStream_acc, consumeStream_acc, assembledReply_filter, evalOf_filter]

/-- C1: /clear reseeds the conversation with exactly one system message
holding the resolved template text when a template is active (non-empty
resolved text), and leaves it empty otherwise, for every configuration and
prior conversation. -/
theorem clear_command_spec (cfg : ChatConfig) (conv : List Message) :
    (cfg.current_template ≠ "" →
      (handle_command "/clear" cfg conv).conversation =
        [Message.mk "system" cfg.current_template]) ∧
    (cfg.current_template = "" →
      (handle_command "/clear" cfg conv).conversation = []) := by
  rw [clear_reduce]
  constructor
  · intro h
    simp [h]
  · intro h
    simp [h]

/-- Witness for C1: /clear with the concise template active keeps exactly
its system message; /clear on a template-free configuration empties the
conversation. -/
theorem clear_command_spec_witness :
    cfgConcise.current_template ≠ "" ∧
    (handle_command "/clear" cfgConcise [Message.mk "user" "hi"]).conversation =
      [Message.mk "system" cfgConcise.current_template] ∧
    cfgDefault.current_template = "" ∧
    (handle_command "/clear" cfgDefault [Message.mk "user" "hi"]).conversation = [] :=
  ⟨by decide, (clear_command_spec cfgConcise [Message.mk "user" "hi"]).1 (by decide),
    rfl, (clear_command_spec cfgDefault [Message.mk "user" "hi"]).2 rfl⟩

/-- C2: for every argument token parsing to the float v, /temp updates the
temperature to v exactly when 0 ≤ v ≤ 1 (touching nothing else); otherwise
the configuration and conversation are unchanged and the validation error
is printed. -/
theorem temp_command_spec (t : String) (v : ℚ) (cfg : ChatConfig) (conv : List Message)
    (h : pyFloat? t = some v) :
    (0 ≤ v ∧ v ≤ 1 →
      handle_command_parts ["/temp", t] cfg conv =
        ⟨true, { cfg with temperature := v }, conv, ["Temperature set to " ++ toString v]⟩) ∧
    (¬(0 ≤ v ∧ v ≤ 1) →
      handle_command_parts ["/temp", t] cfg conv =
        ⟨true, cfg, conv, ["Temperature must be between 0.0 and 1.0"]⟩) := by
  rw [temp_reduce, h]
  constructor
  · intro hr
    simp [hr]
  · intro hr
    simp [hr]

/-- Witness for C2: /temp 0.5 is accepted and stored, /temp 1.5 is rejected
with the range error and no state change. -/
theorem temp_command_spec_witness :
    pyFloat? "0.5" = some (1/2 : ℚ) ∧
    handle_command_parts ["/temp", "0.5"] cfgDefault [] =
      ⟨true, { cfgDefault with temperature := (1/2 : ℚ) }, [],
        ["Temperature set to " ++ toString (1/2 : ℚ)]⟩ ∧
    pyFloat? "1.5" = some (3/2 : ℚ) ∧
    handle_command_parts ["/temp", "1.5"] cfgDefault [] =
      ⟨true, cfgDefault, [], ["Temperature must be between 0.0 and 1.0"]⟩ := by
  have e05 : pyFloat? "0.5" =
      some ((1 : ℚ) * (((0 : ℕ) : ℚ) + ((5 : ℕ) : ℚ) / 10 ^ (1 : ℕ))) := rfl
  have e05n : pyFloat? "0.5" = some (1/2 : ℚ) := by
    rw [e05]
    norm_num
  have e15 : pyFloat? "1.5" =
      some ((1 : ℚ) * (((1 : ℕ) : ℚ) + ((5 : ℕ) : ℚ) / 10 ^ (1 : ℕ))) := rfl
  have e15n : pyFloat? "1.5" = some (3/2 : ℚ) := by
    rw [e15]
    norm_num
  exact ⟨e05n, (temp_command_spec "0.5" (1/2) cfgDefault [] e05n).1 (by norm_num),
    e15n, (temp_command_spec "1.5" (3/2) cfgDefault [] e15n).2 (by norm_num)⟩

/-- C4 counterexample: construction validates nothing, so the CLI flag value
5 lands verbatim in both bounded fields, violating the claimed [0, 1]
range immediately after construction. -/
theorem config_init_out_of_range :
    (startupConfig ⟨none, some 5, some 5, none, none, false⟩).temperature = 5 ∧
    ¬ ((startupConfig ⟨none, some 5, some 5, none, none, false⟩).temperature ≤ 1) ∧
    (startupConfig ⟨none, some 5, some 5, none, none, false⟩).top_p = 5 ∧
    ¬ ((startupConfig ⟨none, some 5, some 5, none, none, false⟩).top_p ≤ 1) := by
  have ht : (startupConfig ⟨none, some 5, some 5, none, none, false⟩).temperature = 5 := rfl
  have hp : (startupConfig ⟨none, some 5, some 5, none, none, false⟩).top_p = 5 := rfl
  refine ⟨ht, ?_, hp, ?_⟩
  · rw [ht]
    norm_num
  · rw [hp]
    norm_num

/-- C4 amended: when the startup flags are absent or in range, every state
reached through any sequence of commands keeps temperature and top_p in
[0, 1]; and the temperature setter is all-or-nothing: a rejected value
changes neither configuration nor conversation. -/
theorem config_bounds_invariant :
    (∀ (args : Args) (cmds : List String) (conv : List Message),
        (∀ v : ℚ, args.temperature = some v → 0 ≤ v ∧ v ≤ 1) →
        (∀ v : ℚ, args.top_p = some v → 0 ≤ v ∧ v ≤ 1) →
        ConfigInv (runCommands cmds (startupConfig args, conv)).1) ∧
    (∀ (t : String) (v : ℚ) (cfg : ChatConfig) (conv : List Message),
        pyFloat? t = some v → ¬(0 ≤ v ∧ v ≤ 1) →
        handle_command_parts ["/temp", t] cfg conv =
          ⟨true, cfg, conv, ["Temperature must be between 0.0 and 1.0"]⟩) := by
  constructor
  · intro args cmds conv ht hp
    apply runCommands_inv
    obtain ⟨et, ep⟩ := startupConfig_bounded_fields args
    constructor
    · rw [et]
      cases hv : args.temperature with
      | none =>
        simp only [Option.getD_none]
        norm_num [DEFAULT_PARAMS_temperature]
      | some v =>
        simpa using ht v hv
    · rw [ep]
      cases hv : args.top_p with
      | none =>
        simp only [Option.getD_none]
        norm_num [DEFAULT_PARAMS_top_p]
      | some v =>
        simpa using hp v hv
  · intro t v cfg conv h hr
    rw [temp_reduce, h]
    simp [hr]

/-- Witness for C4 amended: an in-range startup followed by one command
keeps the invariant, and /temp 1.5 leaves everything untouched except the
error line. -/
theorem config_bounds_invariant_witness :
    ConfigInv (runCommands ["/temp 0.3"]
        (startupConfig ⟨none, some (1/2 : ℚ), none, none, none, false⟩, [])).1 ∧
    handle_command_parts ["/temp", "1.5"] cfgHalfTemp [] =
      ⟨true, cfgHalfTemp, [], ["Temperature must be between 0.0 and 1.0"]⟩ := by
  have e15 : pyFloat? "1.5" =
      some ((1 : ℚ) * (((1 : ℕ) : ℚ) + ((5 : ℕ) : ℚ) / 10 ^ (1 : ℕ))) := rfl
  have e15n : pyFloat? "1.5" = some (3/2 : ℚ) := by
    rw [e15]
    norm_num
  refine ⟨config_bounds_invariant.1 _ _ _ ?_ ?_,
    config_bounds_invariant.2 "1.5" (3/2) cfgHalfTemp [] e15n (by norm_num)⟩
  · intro v hv
    cases hv
    norm_num
  · intro v hv
    cases hv

/-- C5: the interpreter has no /top_p branch at all — the command falls off
the elif chain, so an in-range value like 0.5 is NOT stored: the
configuration (top_p still 0.9), conversation and output are all untouched,
contradicting both the claim and the help text the code itself prints. -/
theorem top_p_command_noop :
    handle_command "/top_p 0.5" cfgDefault [] = ⟨true, cfgDefault, [], []⟩ ∧
    cfgDefault.top_p = DEFAULT_PARAMS_top_p := ⟨rfl, rfl⟩

/-- C6: the interpreter has no /reset branch — the command is silently
ignored, so a moved temperature stays moved instead of reverting to the
documented default 0.7. -/
theorem reset_command_noop :
    handle_command "/reset" cfgHalfTemp [] = ⟨true, cfgHalfTemp, [], []⟩ ∧
    cfgHalfTemp.temperature ≠ DEFAULT_PARAMS_temperature := by
  refine ⟨rfl, ?_⟩
  show (1/2 : ℚ) ≠ DEFAULT_PARAMS_temperature
  norm_num [DEFAULT_PARAMS_temperature]

/-- C8 counterexample: an unknown command is NOT reported — the interpreter
returns continue with state untouched and prints nothing at all. -/
theorem unknown_command_silent :
    handle_command "/bogus" cfgDefault [Message.mk "user" "hi"] =
      ⟨true, cfgDefault, [Message.mk "user" "hi"], []⟩ := rfl

/-- C8 amended: an unknown command word, or /temp with a malformed argument
count, is silently ignored: continue is returned, Configuration and
Conversation are unchanged, and no error (no output at all) is printed. -/
theorem unknown_command_amended :
    (∀ (w : String) (rest : List String) (cfg : ChatConfig) (conv : List Message),
        pyLower w ∉ (["/help", "/reasoning", "/temp", "/params", "/template",
          "/clear", "/exit", "/quit"] : List String) →
        handle_command_parts (w :: rest) cfg conv = ⟨true, cfg, conv, []⟩) ∧
    (∀ (rest : List String) (cfg : ChatConfig) (conv : List Message),
        rest.length ≠ 1 →
        handle_command_parts ("/temp" :: rest) cfg conv = ⟨true, cfg, conv, []⟩) := by
  constructor
  · intro w rest cfg conv h
    unfold handle_command_parts
    split
    · rfl
    next w2 rest2 heq =>
      injection heq with h1 h2
      subst h1
      subst h2
      split <;> first | rfl | simp_all
  · intro rest cfg conv h
    match rest with
    | [] => rfl
    | [a] => exact absurd rfl h
    | a :: b :: tl => rfl

/-- Witness for C8 amended: /xyz and a bare /temp are both silent no-ops. -/
theorem unknown_command_amended_witness :
    handle_command_parts ["/xyz"] cfgDefault [] = ⟨true, cfgDefault, [], []⟩ ∧
    handle_command_parts ["/temp"] cfgDefault [] = ⟨true, cfgDefault, [], []⟩ :=
  ⟨unknown_command_amended.1 "/xyz" [] cfgDefault [] (by decide),
    unknown_command_amended.2 [] cfgDefault [] (by decide)⟩

/-- C10: /template custom stores the whitespace-separated tokens of the raw
argument text joined by single spaces (the token list the interpreter
itself computes with split), not the raw text: on the concrete command
with a three-space gap the stored text has a single space. -/
theorem custom_template_collapses_whitespace :
    (∀ (cmd : String) (args : List String) (cfg : ChatConfig) (conv : List Message),
        pySplit cmd = "/template" :: "custom" :: args → args ≠ [] →
        (handle_command cmd cfg conv).config.current_template = pyJoin " " args ∧
        (handle_command cmd cfg conv).config.template = some "custom") ∧
    (handle_command "/template custom hello   world" cfgDefault
        []).config.current_template = "hello world" ∧
    (handle_command "/template custom hello   world" cfgDefault
        []).config.current_template ≠ "hello   world" := by
  refine ⟨?_, rfl, by decide⟩
  intro cmd args cfg conv hsplit hne
  have hmem : "" ∉ pySplit cmd := pySplit_tokens_ne_empty cmd
  rw [hsplit] at hmem
  obtain ⟨a, rest, rfl⟩ : ∃ a rest, args = a :: rest := by
    cases args with
    | nil => exact absurd rfl hne
    | cons a r => exact ⟨a, r, rfl⟩
  have ha : a ≠ "" := by
    intro he
    subst he
    simp at hmem
  have hj := pyJoin_ne_empty a rest ha
  show (handle_command_parts (pySplit cmd) cfg conv).config.current_template = _ ∧
    (handle_command_parts (pySplit cmd) cfg conv).config.template = some "custom"
  rw [hsplit, custom_reduce, if_pos hj]
  exact ⟨rfl, rfl⟩

/-- Witness for C10 at the concrete command line with a three-space gap. -/
theorem custom_template_collapses_whitespace_witness :
    pySplit "/template custom a  b" = ["/template", "custom", "a", "b"] ∧
    (handle_command "/template custom a  b" cfgDefault []).config.current_template =
      pyJoin " " ["a", "b"] ∧
    (handle_command "/template custom a  b" cfgDefault []).config.template =
      some "custom" := by
  have hs : pySplit "/template custom a  b" = ["/template", "custom", "a", "b"] := rfl
  have h := (custom_template_collapses_whitespace.1 "/template custom a  b" ["a", "b"]
    cfgDefault [] hs (by decide))
  exact ⟨hs, h.1, h.2⟩

/-- C9: an empty model list — which any fetch failure produces — makes the
startup phase of chat() abort before the loop, with no model-selection
prompt. -/
theorem empty_models_aborts :
    (∀ (fetched : Option (List ModelRec)) (configModel : Option String),
        get_available_models fetched = [] →
          chatStartup fetched configModel =
            ⟨true, false, false, ["No models found. Exiting..."]⟩) ∧
    get_available_models none = [] := by
  refine ⟨?_, rfl⟩
  intro fetched configModel h
  rw [chatStartup, h]
  rfl

/-- Witness for C9: a failed fetch (none) with no configured model. -/
theorem empty_models_aborts_witness :
    chatStartup none none = ⟨true, false, false, ["No models found. Exiting..."]⟩ :=
  empty_models_aborts.1 none none rfl

end OllamaChat
